import Mathlib

/-!
Verification of the Cycloid Machine mechanism kinematics engine
(simulator_cycloid: components.py, drawing_canvas.py, sympy_solver.py).

The Python source is embedded shallowly:
- QPointF becomes the structure Pt over the reals;
- Python float arithmetic is idealised as real arithmetic
  (math.hypot x y = Real.sqrt (x^2 + y^2), math.radians d = d * pi / 180,
  math.atan2 y x = Complex.arg (x + y i));
- fallible operations return Except PyError (float division by zero raises
  ZeroDivisionError in Python, reading a missing attribute raises AttributeError);
- Python dicts keyed by component id or (id, point name) become association
  lists or explicit lookup functions; ids are unique across components
  (the single-id-space invariant of the mechanism model), under which the
  list representations agree with the dict semantics.
-/

set_option maxHeartbeats 1000000

namespace Cycloid

/-- Errors raised by the embedded Python code. -/
inductive PyError where
  | attributeError
  | zeroDivisionError
  deriving DecidableEq

/-- QPointF: a 2D point with real coordinates. -/
structure Pt where
  x : ℝ
  y : ℝ

/-- Pointwise addition of QPointF values. -/
def Pt.add (p q : Pt) : Pt := ⟨p.x + q.x, p.y + q.y⟩

/-- Pointwise subtraction of QPointF values. -/
def Pt.sub (p q : Pt) : Pt := ⟨p.x - q.x, p.y - q.y⟩

/-- QPointF multiplied by a scalar on the right. -/
def Pt.smul (p : Pt) (s : ℝ) : Pt := ⟨p.x * s, p.y * s⟩

/-- QPointF.dotProduct. -/
def Pt.dot (p q : Pt) : ℝ := p.x * q.x + p.y * q.y

/-- Squared distance between two points, written as the code writes it:
QPointF.dotProduct (p - q, p - q). -/
def dSq (p q : Pt) : ℝ := Pt.dot (p.sub q) (p.sub q)

/-- math.hypot. -/
noncomputable def hypot (x y : ℝ) : ℝ := Real.sqrt (x ^ 2 + y ^ 2)

/-- math.radians: degrees to radians. -/
noncomputable def radians (d : ℝ) : ℝ := d * (Real.pi / 180)

/-- math.atan2 y x, embedded as the argument of the complex number x + y i. -/
noncomputable def atan2 (y x : ℝ) : ℝ := Complex.arg ⟨x, y⟩

/-- ConnectionPoint dataclass (components.py line 7): a named point on a wheel
at a given radius from its center. -/
structure ConnectionPoint where
  radius : ℝ
  id : String

/-- Lookup in the connection_points dict of a wheel (keys are unique). -/
def lookupCP : List (String × ConnectionPoint) → String → Option ConnectionPoint
  | [], _ => none
  | e :: es, pid => if e.1 = pid then some e.2 else lookupCP es pid

/-- Wheel dataclass (components.py line 93).  The speed_ratio field of the
source (a float defaulting to 1.0, unused by every operation embedded here)
is omitted from the embedding. -/
structure Wheel where
  center : Pt
  diameter : ℝ
  id : ℤ
  rotation_rate : ℝ := 0
  connection_points : List (String × ConnectionPoint) := []
  current_angle_deg : ℝ := 0
  selected : Bool := false

/-- Wheel.get_connection_point_position (components.py lines 106-131):
returns None when the point id is absent or its radius is negative, else
center + radius * (cos theta, sin theta) with theta the current wheel
rotation angle converted from degrees to radians. -/
noncomputable def Wheel.get_connection_point_position (w : Wheel) (point_id : String) :
    Option Pt :=
  match lookupCP w.connection_points point_id with
  | none => none
  | some cp =>
    if cp.radius < 0 then none
    else
      let rad := radians w.current_angle_deg
      some ⟨w.center.x + cp.radius * Real.cos rad, w.center.y + cp.radius * Real.sin rad⟩

/-- Rod dataclass (components.py lines 20-37).  The dataclass declares NO
fixed_length field; since Python objects can carry dynamically added
attributes, fixed_length is embedded as an Option Bool whose value none means
the attribute is absent (so reading it raises AttributeError).  No code in
the repository ever assigns the attribute, so every Rod the program builds
has fixed_length = none; see Rod.dataclass below. -/
structure Rod where
  length : ℝ
  start_pos : Pt
  end_pos : Pt
  id : ℤ
  start_connection : Option (ℤ × String) := none
  end_connection : Option (ℤ × String) := none
  mid_point_distance : Option ℝ := none
  mid_point_connection : Option (ℤ × String) := none
  pen_distance_from_start : Option ℝ := none
  selected : Bool := false
  fixed_length : Option Bool := none

/-- The Rod dataclass constructor: its parameter list is exactly the declared
fields, so it can never set the fixed_length attribute. -/
def Rod.dataclass (length : ℝ) (start_pos end_pos : Pt) (id : ℤ)
    (start_connection end_connection : Option (ℤ × String))
    (mid_point_distance : Option ℝ) (mid_point_connection : Option (ℤ × String))
    (pen_distance_from_start : Option ℝ) (selected : Bool) : Rod :=
  ⟨length, start_pos, end_pos, id, start_connection, end_connection,
   mid_point_distance, mid_point_connection, pen_distance_from_start,
   selected, none⟩

/-- Rod.get_point_at_distance (components.py lines 70-75): linear
interpolation ratio = distance / length with no range check; Python float
division raises ZeroDivisionError when length = 0. -/
noncomputable def Rod.get_point_at_distance (r : Rod) (distance : ℝ) :
    Except PyError Pt :=
  if r.length = 0 then Except.error PyError.zeroDivisionError
  else
    Except.ok ⟨r.start_pos.x + (r.end_pos.x - r.start_pos.x) * (distance / r.length),
               r.start_pos.y + (r.end_pos.y - r.start_pos.y) * (distance / r.length)⟩

/-- Rod.move_start_to (components.py lines 77-83): moves the start point and
recomputes length as the live distance to the fixed end point. -/
noncomputable def Rod.move_start_to (r : Rod) (new_pos : Pt) : Rod :=
  { r with
    start_pos := new_pos
    length := Real.sqrt ((r.end_pos.x - new_pos.x) * (r.end_pos.x - new_pos.x) +
                         (r.end_pos.y - new_pos.y) * (r.end_pos.y - new_pos.y)) }

/-- The mechanism state held by DrawingCanvas: wheel list, rod list and the
optional canvas wheel (stored here by id; components_by_id is derived from
the two lists and is not modelled separately). -/
structure Mechanism where
  wheels : List Wheel
  rods : List Rod
  canvas_wheel : Option ℤ := none

/-- DrawingCanvas.delete_selected_component (drawing_canvas.py lines 855-912),
restricted to its effect on the mechanism state: for every other rod, any
start, end or mid connection that points at the deleted component id is set
to None; then the component is removed from its list (removal by id, which
agrees with the removal in the source by object under the unique-id invariant);
the canvas wheel reference is cleared when it was the deleted component. -/
def clearRodRefs (component_id : ℤ) (rod : Rod) : Rod :=
  if rod.id = component_id then rod
  else
    { rod with
      start_connection :=
        match rod.start_connection with
        | some c => if c.1 = component_id then none else some c
        | none => none
      end_connection :=
        match rod.end_connection with
        | some c => if c.1 = component_id then none else some c
        | none => none
      mid_point_connection :=
        match rod.mid_point_connection with
        | some c => if c.1 = component_id then none else some c
        | none => none }

/-- The mechanism-level effect of delete_selected_component for the component
with the given id. -/
def delete_selected_component (m : Mechanism) (component_id : ℤ) : Mechanism :=
  { wheels := m.wheels.filter (fun w => decide (w.id ≠ component_id))
    rods := (m.rods.map (clearRodRefs component_id)).filter
      (fun r => decide (r.id ≠ component_id))
    canvas_wheel :=
      match m.canvas_wheel with
      | some cw => if cw = component_id then none else some cw
      | none => none }

/-! The Relaxation Solver: DrawingCanvas._propagate_constraints
(drawing_canvas.py lines 943-1164).  Dictionaries keyed by (component id,
point name) become lookup functions; the intended_rod_positions dict (keyed
by rod id, its key set always being exactly the ids of self.rods) becomes an
association list rebuilt from the rod list each pass. -/

/-- Key of the position dictionaries: (component id, point name). -/
abbrev Key := ℤ × String

/-- A position-target dictionary, e.g. the initial_targets argument
(the absent dictionary is the constantly-none function). -/
abbrev TargetMap := Key → Option Pt

/-- The intended_rod_positions dictionary: rod id to (start, end). -/
abbrev IMap := List (ℤ × (Pt × Pt))

/-- Dictionary lookup in an IMap; all reads in the source are at keys that
are present (the key set is always the set of rod ids). -/
def IMap.get : IMap → ℤ → Pt × Pt
  | [], _ => (⟨0, 0⟩, ⟨0, 0⟩)
  | e :: es, i => if e.1 = i then e.2 else IMap.get es i

/-- First wheel in the list with the given id (unique-id invariant). -/
def findWheel : List Wheel → ℤ → Option Wheel
  | [], _ => none
  | w :: ws, i => if w.id = i then some w else findWheel ws i

/-- First rod in the list with the given id (unique-id invariant). -/
def findRod : List Rod → ℤ → Option Rod
  | [], _ => none
  | r :: rs, i => if r.id = i then some r else findRod rs i

/-- mapM over Except, unfolded to plain matches: stops at the first error.
This mirrors executing the Python per-rod loop, which raises out of the
whole call at the first raising iteration. -/
def mapExcept {α β : Type} (f : α → Except PyError β) : List α → Except PyError (List β)
  | [] => Except.ok []
  | a :: as =>
    match f a with
    | Except.error e => Except.error e
    | Except.ok b =>
      match mapExcept f as with
      | Except.error e => Except.error e
      | Except.ok bs => Except.ok (b :: bs)

/-- Wheel part of the start-of-pass current_positions dict
(drawing_canvas.py lines 964-968): only points with a computed position are
present. -/
noncomputable def wheelPointLookup (wheels : List Wheel) (k : Key) : Option Pt :=
  match findWheel wheels k.1 with
  | some w => Wheel.get_connection_point_position w k.2
  | none => none

/-- Rod part of the start-of-pass current_positions dict (lines 969-971):
the intended start and end of every rod. -/
def rodEndpointLookup (rods : List Rod) (prev : IMap) (k : Key) : Option Pt :=
  match findRod rods k.1 with
  | some r =>
    if k.2 = "start" then some (IMap.get prev r.id).1
    else if k.2 = "end" then some (IMap.get prev r.id).2
    else none
  | none => none

/-- current_positions at the start of a pass: wheel connection points, then
rod endpoints (rod entries are written after wheel entries; under the
unique-id invariant the key sets are disjoint). -/
noncomputable def currentPositions (m : Mechanism) (prev : IMap) (k : Key) : Option Pt :=
  match rodEndpointLookup m.rods prev k with
  | some p => some p
  | none => wheelPointLookup m.wheels k

/-- Resolution of an endpoint target in phase 1 (lines 990-996): a connection
whose target point name is "mid" is ignored in phase 1, otherwise the target
is looked up in pass_targets. -/
def resolveTarget (pass_targets : TargetMap) (conn : Option (ℤ × String)) : Option Pt :=
  match conn with
  | some c => if c.2 = "mid" then none else pass_targets c
  | none => none

/-- Phase 1 (endpoint phase) for one rod (lines 982-1040).  Reading
rod.fixed_length on a rod whose attribute is absent raises AttributeError.
A QPointF is always truthy in Python, so the original
"if target_start and target_end" tests are exactly the is-not-None tests.
Returns the intended (start, end) pair and the (start_fixed, end_fixed)
flags. -/
noncomputable def phase1Rod (pass_targets : TargetMap) (current : Pt × Pt) (rod : Rod) :
    Except PyError ((Pt × Pt) × (Bool × Bool)) :=
  let current_start := current.1
  let current_end := current.2
  let target_start := resolveTarget pass_targets rod.start_connection
  let target_end := resolveTarget pass_targets rod.end_connection
  match rod.fixed_length with
  | none => Except.error PyError.attributeError
  | some fl =>
    if fl then
      match target_start, target_end with
      | some ts, some te =>
        let vec := te.sub ts
        let dist := hypot vec.x vec.y
        let ie := if dist > 1e-6 then ts.add (vec.smul (rod.length / dist)) else ts
        Except.ok ((ts, ie), (true, true))
      | some ts, none =>
        let vec := current_end.sub ts
        let dist := hypot vec.x vec.y
        let ie := if dist > 1e-6 then ts.add (vec.smul (rod.length / dist)) else ts
        Except.ok ((ts, ie), (true, false))
      | none, some te =>
        let vec := current_start.sub te
        let dist := hypot vec.x vec.y
        let istart := if dist > 1e-6 then te.add (vec.smul (rod.length / dist)) else te
        Except.ok ((istart, te), (false, true))
      | none, none => Except.ok ((current_start, current_end), (false, false))
    else
      match target_start, target_end with
      | some ts, some te => Except.ok ((ts, te), (true, true))
      | some ts, none => Except.ok ((ts, current_end), (true, false))
      | none, some te => Except.ok ((current_start, te), (false, true))
      | none, none => Except.ok ((current_start, current_end), (false, false))

/-- positions_after_phase1 (lines 1042-1057): pass_targets updated with every
phase-1 start and end of each rod, and with its mid point when the rod has a
mid_point_distance (ratio clamped to the unit interval; a rod of degenerate
phase-1 length contributes its start). -/
noncomputable def afterPhase1 (m : Mechanism) (phase1 : IMap) (pass_targets : TargetMap)
    (k : Key) : Option Pt :=
  match findRod m.rods k.1 with
  | some r =>
    let rs := (IMap.get phase1 r.id).1
    let re := (IMap.get phase1 r.id).2
    if k.2 = "start" then some rs
    else if k.2 = "end" then some re
    else if k.2 = "mid" then
      match r.mid_point_distance with
      | some md =>
        let vec := re.sub rs
        let current_len := hypot vec.x vec.y
        if current_len > 1e-6 then
          some (rs.add (vec.smul (max 0 (min 1 (md / current_len)))))
        else some rs
      | none => pass_targets k
    else pass_targets k
  | none => pass_targets k

/-- Phase 2 (mid-point phase) for one rod (lines 1059-1132).  Returns the
final (start, end) of the rod for the pass; rods without a mid-point connection,
without a resolvable mid target, or within tolerance keep their phase-1
positions. -/
noncomputable def phase2Rod (thresholdSq : ℝ) (afterP1 : TargetMap) (phase1 : IMap)
    (flags : ℤ → Bool × Bool) (rod : Rod) : Except PyError (Pt × Pt) :=
  let curr := IMap.get phase1 rod.id
  let current_start := curr.1
  let current_end := curr.2
  match rod.mid_point_connection with
  | none => Except.ok curr
  | some mid_conn =>
    let start_fixed_p1 := (flags rod.id).1
    let end_fixed_p1 := (flags rod.id).2
    let original_length := rod.length
    let mid_dist := max 0 (min original_length
      (match rod.mid_point_distance with | some d => d | none => 0))
    match afterP1 mid_conn with
    | none => Except.ok curr
    | some target_mid =>
      let vec_p1 := current_end.sub current_start
      let len_p1 := hypot vec_p1.x vec_p1.y
      let mid_phase1 :=
        if len_p1 > 1e-6 then current_start.add (vec_p1.smul (mid_dist / len_p1))
        else current_start
      if Pt.dot (target_mid.sub mid_phase1) (target_mid.sub mid_phase1) > thresholdSq then
        if start_fixed_p1 && end_fixed_p1 then Except.ok curr
        else if start_fixed_p1 then
          match rod.fixed_length with
          | none => Except.error PyError.attributeError
          | some fl =>
            if fl then
              let vec_S_TM := target_mid.sub current_start
              let dist_S_TM := hypot vec_S_TM.x vec_S_TM.y
              if mid_dist > 1e-6 ∧ dist_S_TM > 1e-6 then
                Except.ok (current_start,
                  current_start.add (vec_S_TM.smul (original_length / mid_dist)))
              else
                let angle := atan2 vec_p1.y vec_p1.x
                Except.ok (current_start,
                  current_start.add ⟨original_length * Real.cos angle,
                                     original_length * Real.sin angle⟩)
            else Except.ok curr
        else if end_fixed_p1 then
          match rod.fixed_length with
          | none => Except.error PyError.attributeError
          | some fl =>
            if fl then
              let vec_E_TM := target_mid.sub current_end
              let dist_E_TM := hypot vec_E_TM.x vec_E_TM.y
              let dist_end_mid := original_length - mid_dist
              if dist_end_mid > 1e-6 ∧ dist_E_TM > 1e-6 then
                Except.ok (current_end.add (vec_E_TM.smul (original_length / dist_end_mid)),
                  current_end)
              else
                let angle := atan2 vec_p1.y vec_p1.x
                Except.ok (current_end.sub ⟨original_length * Real.cos angle,
                                            original_length * Real.sin angle⟩,
                  current_end)
            else Except.ok curr
        else
          let translation := target_mid.sub mid_phase1
          Except.ok (current_start.add translation, current_end.add translation)
      else Except.ok curr

/-- End-of-pass maximum squared correction (lines 1134-1141): over all rods,
the larger of the squared start and end movements, folded with max from 0. -/
def maxCorrection (rods : List Rod) (prev final : IMap) : ℝ :=
  rods.foldl
    (fun acc r =>
      max acc (max (dSq (IMap.get final r.id).1 (IMap.get prev r.id).1)
                   (dSq (IMap.get final r.id).2 (IMap.get prev r.id).2)))
    0

/-- pass_targets: the start-of-pass snapshot overridden by the supplied
targets (lines 973-976; updating with the absent or empty initial dictionary
is the identity). -/
noncomputable def passTargets (m : Mechanism) (prev : IMap) (targets : TargetMap) :
    TargetMap := fun k =>
  match targets k with
  | some p => some p
  | none => currentPositions m prev k

/-- Phase 1 over all rods, collecting the per-rod intended positions and
fixed flags keyed by rod id. -/
noncomputable def phase1All (m : Mechanism) (pt : TargetMap) (prev : IMap) :
    Except PyError (List (ℤ × ((Pt × Pt) × (Bool × Bool)))) :=
  mapExcept (fun r => (phase1Rod pt (IMap.get prev r.id) r).map (fun v => (r.id, v))) m.rods

/-- The endpoint_fixed_flags dictionary built from the phase-1 results. -/
def flagsOf (results : List (ℤ × ((Pt × Pt) × (Bool × Bool)))) : ℤ → Bool × Bool :=
  fun i =>
    match results.find? (fun e => e.1 == i) with
    | some e => e.2.2
    | none => (false, false)

/-- Phase 2 over all rods, producing the final pass positions keyed by rod
id. -/
noncomputable def phase2All (m : Mechanism) (thresholdSq : ℝ) (afterP1 : TargetMap)
    (phase1 : IMap) (flags : ℤ → Bool × Bool) : Except PyError IMap :=
  mapExcept (fun r => (phase2Rod thresholdSq afterP1 phase1 flags r).map
    (fun v => (r.id, v))) m.rods

/-- One full pass of the solver (lines 960-1143): build pass_targets from the
start-of-pass snapshot overridden by the supplied targets, run phase 1 on
every rod, run phase 2 on every rod against the phase-1 results, and return
the new intended positions with the maximum squared correction of the pass. -/
noncomputable def onePass (m : Mechanism) (thresholdSq : ℝ) (targets : TargetMap)
    (prev : IMap) : Except PyError (IMap × ℝ) :=
  match phase1All m (passTargets m prev targets) prev with
  | Except.error e => Except.error e
  | Except.ok results =>
    match phase2All m thresholdSq
        (afterPhase1 m (results.map (fun e => (e.1, e.2.1))) (passTargets m prev targets))
        (results.map (fun e => (e.1, e.2.1))) (flagsOf results) with
    | Except.error e => Except.error e
    | Except.ok finals => Except.ok (finals, maxCorrection m.rods prev finals)

/-- The pass loop (lines 956-1151): up to 500 passes; the initial targets are
applied only on pass 0; the loop breaks as soon as the maximum squared
correction of a pass falls below the threshold.  The returned Bool records whether the
loop converged (broke early) or exhausted its pass budget, mirroring the
converged and reached-max branches of the source. -/
noncomputable def runPasses (m : Mechanism) (thresholdSq : ℝ) (targets : TargetMap) :
    ℕ → ℕ → IMap → Except PyError (IMap × Bool)
  | _, 0, prev => Except.ok (prev, false)
  | passIdx, fuel + 1, prev =>
    match onePass m thresholdSq (if passIdx = 0 then targets else fun _ => none) prev with
    | Except.error e => Except.error e
    | Except.ok res =>
      if res.2 < thresholdSq then Except.ok (res.1, true)
      else runPasses m thresholdSq targets (passIdx + 1) fuel res.1

/-- DrawingCanvas._propagate_constraints (lines 943-1164): the intended
positions start from the live positions of the rods; after the pass loop, each
start_pos and end_pos of each rod are set to its final intended positions.  The
threshold is (0.1 / pixels_per_mm)^2 (the canvas initialises pixels_per_mm
to 2).  The Bool of the result reports convergence as in runPasses. -/
noncomputable def propagate_constraints (m : Mechanism) (pixels_per_mm : ℝ)
    (initial_targets : TargetMap) : Except PyError (Mechanism × Bool) :=
  let thresholdSq := (0.1 / pixels_per_mm) ^ 2
  let init : IMap := m.rods.map (fun r => (r.id, (r.start_pos, r.end_pos)))
  match runPasses m thresholdSq initial_targets 0 500 init with
  | Except.error e => Except.error e
  | Except.ok res =>
    Except.ok
      ({ m with rods := m.rods.map (fun r =>
          { r with start_pos := (IMap.get res.1 r.id).1
                   end_pos := (IMap.get res.1 r.id).2 }) }, res.2)

/-- The maximum squared correction produced by the first pass of an
invocation of the solver on the given mechanism state with the given
targets. -/
noncomputable def firstPassCorrection (m : Mechanism) (pixels_per_mm : ℝ)
    (initial_targets : TargetMap) : Except PyError ℝ :=
  match onePass m ((0.1 / pixels_per_mm) ^ 2) initial_targets
      (m.rods.map (fun r => (r.id, (r.start_pos, r.end_pos)))) with
  | Except.error e => Except.error e
  | Except.ok res => Except.ok res.2

/-! The numerical loop of the Kinematic Equation Solver: calculate_path_sympy
(sympy_solver.py lines 295-339).  The scipy root-finder and the pen-position
evaluation are external collaborators; the loop is embedded over an abstract
guess type, with rootSolve i g the outcome (None = non-convergence) of the
root-find at sample index i warm-started from g, and the stored sample
standing for the solved unknown vector from which the pen point is a pure
function. -/

/-- The per-sample loop body: on success the solution becomes the next warm
start and the sample is emitted; on failure at sample index i, if i > 10 the
whole remaining path is aborted with solution_successful = False, else the
current guess is used as the (degraded) sample and the loop continues. -/
def sympyLoopAux {G : Type} (rootSolve : ℕ → G → Option G) :
    ℕ → ℕ → G → List G → List G × Bool
  | 0, _, _, acc => (acc.reverse, true)
  | fuel + 1, i, guess, acc =>
    match rootSolve i guess with
    | some x => sympyLoopAux rootSolve fuel (i + 1) x (x :: acc)
    | none =>
      if 10 < i then (acc.reverse, false)
      else sympyLoopAux rootSolve fuel (i + 1) guess (guess :: acc)

/-- The numerical loop of calculate_path_sympy over the given number of
samples, started from the all-zero initial guess g0. -/
def calculate_path_loop {G : Type} (rootSolve : ℕ → G → Option G) (steps : ℕ)
    (g0 : G) : List G × Bool :=
  sympyLoopAux rootSolve steps 0 g0 []

/-! Concrete mechanisms and inputs used by witnesses and counterexamples. -/

/-- A rod of length 10 lying from (0,0) to (10,0). -/
def rodC8 : Rod := { length := 10, start_pos := ⟨0, 0⟩, end_pos := ⟨10, 0⟩, id := 1 }

/-- A root-finder oracle over natural-number guesses that fails exactly at
sample index 11 and otherwise returns i + 1. -/
def solveC5 (i : ℕ) (_g : ℕ) : Option ℕ := if i = 11 then none else some (i + 1)

/-- A rod whose end point is at (3,4); moving its start onto (3,4) makes its
live length zero. -/
def rodC10 : Rod := { length := 5, start_pos := ⟨0, 0⟩, end_pos := ⟨3, 4⟩, id := 7 }

/-- A wheel with a connection point of radius 5 named p1. -/
def wheelC7 : Wheel :=
  { center := ⟨0, 0⟩, diameter := 10, id := 1,
    connection_points := [("p1", ⟨5, "p1"⟩)] }

/-- A mechanism holding a single dataclass-constructed rod (no wheel). -/
def mechC2 : Mechanism :=
  { wheels := [],
    rods := [Rod.dataclass 10 ⟨0, 0⟩ ⟨10, 0⟩ 1 none none none none none false] }

/-- A wheel with a connection point p1 of radius 5, used by the deletion
scenario. -/
def wheelC3 : Wheel :=
  { center := ⟨0, 0⟩, diameter := 10, id := 1,
    connection_points := [("p1", ⟨5, "p1"⟩)] }

/-- A dataclass-constructed rod whose start is connected to point p1 of wheel 1. -/
def rodC3 : Rod :=
  Rod.dataclass 5 ⟨5, 0⟩ ⟨10, 0⟩ 2 (some (1, "p1")) none none none none false

/-- The deletion-scenario mechanism: wheel 1 plus rod 2 connected to it. -/
def mechC3 : Mechanism := { wheels := [wheelC3], rods := [rodC3] }

/-- The driver wheel of the C1 scenario: connection point a at radius 0 (so
its position is always the wheel center (0,0)) and connection point b at
radius 20 (position (20,0) at angle 0). -/
def wheelC1 : Wheel :=
  { center := ⟨0, 0⟩, diameter := 40, id := 1,
    connection_points := [("a", ⟨0, "a"⟩), ("b", ⟨20, "b"⟩)] }

/-- A fixed_length rod of nominal length 10 whose start is connected to wheel
point a and whose end is connected to wheel point b. -/
def rodC1 : Rod :=
  { length := 10, start_pos := ⟨0, 0⟩, end_pos := ⟨0, 10⟩, id := 2,
    start_connection := some (1, "a"), end_connection := some (1, "b"),
    fixed_length := some true }

/-- The C1 scenario mechanism. -/
def mechC1 : Mechanism := { wheels := [wheelC1], rods := [rodC1] }

/-- External targets for C1: start target (0,0) and end target (20,0), twice
the nominal rod length apart (and agreeing with the positions the wheel
itself computes for its points, so the targets persist across passes). -/
noncomputable def tgtC1 : TargetMap := fun k =>
  if k = (1, "a") then some ⟨0, 0⟩ else if k = (1, "b") then some ⟨20, 0⟩ else none

/-- Target map for the C4 endpoint-phase scenario: the start of the rod is
targeted to (5,5). -/
noncomputable def ptC4 : TargetMap := fun k =>
  if k = (1, "t") then some ⟨5, 5⟩ else none

/-- A fixed_length rod of length 5 whose start is connected to the targeted
point; its current positions run from (0,5) to (5,5), so the start target
(5,5) coincides with the current end and the pivot vector is zero-length. -/
def rodC4a : Rod :=
  { length := 5, start_pos := ⟨0, 5⟩, end_pos := ⟨5, 5⟩, id := 3,
    start_connection := some (1, "t"), fixed_length := some true }

/-- A fixed_length rod of length 5 with a mid point at distance 0 from the
start, connected to an external point: the degenerate mid-point pivot case. -/
def rodC4b : Rod :=
  { length := 5, start_pos := ⟨0, 0⟩, end_pos := ⟨5, 0⟩, id := 5,
    mid_point_distance := some 0, mid_point_connection := some (9, "x"),
    fixed_length := some true }

/-- Phase-1 positions for the C4 mid-point scenario: rod 5 runs from (0,0)
to (5,0). -/
def phC4 : IMap := [(5, (⟨0, 0⟩, ⟨5, 0⟩))]

/-- positions_after_phase1 lookup for the C4 mid-point scenario: the mid
target (9, x) resolves to (1,1). -/
noncomputable def afterP1C4 : TargetMap := fun k =>
  if k = ((9 : ℤ), "x") then some ⟨1, 1⟩ else none

/-- The driver wheel of the C6 scenario: one connection point a of radius 0,
whose position is always the wheel center (0,0). -/
def wheelC6 : Wheel :=
  { center := ⟨0, 0⟩, diameter := 10, id := 1,
    connection_points := [("a", ⟨0, "a"⟩)] }

/-- A non-fixed-length rod (fixed_length attribute set to False) whose start
is connected to wheel point a; it currently lies from (0,0) to (5,0). -/
def rodC6 : Rod :=
  { length := 5, start_pos := ⟨0, 0⟩, end_pos := ⟨5, 0⟩, id := 2,
    start_connection := some (1, "a"), fixed_length := some false }

/-- The C6 scenario mechanism. -/
def mechC6 : Mechanism := { wheels := [wheelC6], rods := [rodC6] }

/-- A target map conflicting with the positions the solver re-derives each
pass: it targets wheel point a to (50,0) although the position the wheel itself computes
for that point is (0,0). -/
noncomputable def tgtC6 : TargetMap := fun k =>
  if k = (1, "a") then some ⟨50, 0⟩ else none

/-! Helper lemmas. -/

/-- Phase 1 raises AttributeError on any rod whose fixed_length attribute is
absent. -/
theorem phase1Rod_attr_absent (pt : TargetMap) (cur : Pt × Pt) (r : Rod)
    (hfl : r.fixed_length = none) :
    phase1Rod pt cur r = Except.error PyError.attributeError := by
  simp only [phase1Rod, hfl]

/-- The whole solver raises AttributeError whenever the first rod of the
mechanism has no fixed_length attribute: the error surfaces out of phase 1
of pass 0. -/
theorem propagate_attr_error (m : Mechanism) (ppm : ℝ) (tg : TargetMap)
    (r : Rod) (rest : List Rod) (hrods : m.rods = r :: rest)
    (hfl : r.fixed_length = none) :
    propagate_constraints m ppm tg = Except.error PyError.attributeError := by
  rw [propagate_constraints]
  rw [show (500 : ℕ) = 499 + 1 from rfl]
  rw [runPasses]
  rw [onePass]
  rw [phase1All]
  rw [hrods]
  rw [mapExcept]
  rw [phase1Rod_attr_absent _ _ r hfl]
  rfl

/-- hypot x y = r whenever x^2 + y^2 = r^2 and r is nonnegative. -/
theorem hypot_eq {x y r : ℝ} (hr : 0 ≤ r) (h : x ^ 2 + y ^ 2 = r ^ 2) :
    hypot x y = r := by
  rw [hypot, h, Real.sqrt_sq hr]

/-- A vector of positive hypot is not the zero vector. -/
theorem ne_zero_of_hypot_pos {x y : ℝ} (h : 0 < hypot x y) : ¬(x = 0 ∧ y = 0) := by
  rintro ⟨hx, hy⟩
  rw [hx, hy] at h
  norm_num [hypot] at h

/-- The complex absolute value of x + y i is hypot x y. -/
theorem abs_mk_eq_hypot (x y : ℝ) : Complex.abs ⟨x, y⟩ = hypot x y := by
  rw [Complex.abs_apply, Complex.normSq_mk, hypot]
  ring_nf

/-- Cosine of atan2 for a nonzero vector. -/
theorem cos_atan2 (y x : ℝ) (h : ¬(x = 0 ∧ y = 0)) :
    Real.cos (atan2 y x) = x / hypot x y := by
  have hz : (⟨x, y⟩ : ℂ) ≠ 0 := by
    intro hc
    exact h ⟨congrArg Complex.re hc, congrArg Complex.im hc⟩
  rw [atan2, Complex.cos_arg hz, abs_mk_eq_hypot]

/-- Sine of atan2. -/
theorem sin_atan2 (y x : ℝ) :
    Real.sin (atan2 y x) = y / hypot x y := by
  rw [atan2, Complex.sin_arg, abs_mk_eq_hypot]

/-- Phase 1, fixed_length rod, both endpoints targeted, nondegenerate
direction vector: the start is snapped to its target and the end is placed
at nominal length along the direction from the start target to the end
target; the resulting squared endpoint separation is the nominal length
squared (not the squared target distance). -/
theorem phase1_both_fixed (pt : TargetMap) (cur : Pt × Pt) (rod : Rod) (ts te : Pt)
    (hfl : rod.fixed_length = some true)
    (hts : resolveTarget pt rod.start_connection = some ts)
    (hte : resolveTarget pt rod.end_connection = some te)
    (hdist : hypot (te.sub ts).x (te.sub ts).y > 1e-6) :
    phase1Rod pt cur rod =
      Except.ok ((ts, ts.add ((te.sub ts).smul
        (rod.length / hypot (te.sub ts).x (te.sub ts).y))), (true, true))
    ∧ dSq (ts.add ((te.sub ts).smul
        (rod.length / hypot (te.sub ts).x (te.sub ts).y))) ts = rod.length ^ 2 := by
  have hh : hypot (te.sub ts).x (te.sub ts).y ≠ 0 :=
    ne_of_gt (lt_trans (by norm_num) hdist)
  constructor
  · simp only [phase1Rod, hfl, hts, hte]
    rw [if_pos hdist]
    simp
  · have hsq : hypot (te.sub ts).x (te.sub ts).y ^ 2 = (te.sub ts).x ^ 2 + (te.sub ts).y ^ 2 :=
      Real.sq_sqrt (by positivity)
    simp only [dSq, Pt.dot, Pt.sub, Pt.add, Pt.smul]
    simp only [Pt.sub] at hsq hh
    field_simp
    nlinarith [hsq]

/-- Phase 1, fixed_length rod, start targeted only, degenerate pivot vector
(the current end coincides with the start target up to the 1e-6 guard): the
end is made to coincide with the snapped start, collapsing the rod, rather
than preserving the previous bearing of the rod. -/
theorem phase1_start_only_degenerate (pt : TargetMap) (cur : Pt × Pt) (rod : Rod) (ts : Pt)
    (hfl : rod.fixed_length = some true)
    (hts : resolveTarget pt rod.start_connection = some ts)
    (hte : resolveTarget pt rod.end_connection = none)
    (hdeg : ¬ hypot ((cur.2).sub ts).x ((cur.2).sub ts).y > 1e-6) :
    phase1Rod pt cur rod = Except.ok ((ts, ts), (true, false)) := by
  simp only [phase1Rod, hfl, hts, hte]
  rw [if_neg hdeg]
  simp

/-- Phase 2, fixed_length rod with start fixed in phase 1 and a mid point at
distance 0 needing correction: the degenerate pivot guard fires and the end
is re-placed at nominal length along atan2 of the phase-1 vector, i.e. the
phase-1 bearing of the rod is preserved. -/
theorem phase2_mid_degenerate_bearing (thrSq : ℝ) (afterP1 : TargetMap) (ph : IMap)
    (flags : ℤ → Bool × Bool) (rod : Rod) (mc : ℤ × String) (cs ce tm : Pt)
    (hget : IMap.get ph rod.id = (cs, ce))
    (hmc : rod.mid_point_connection = some mc)
    (hafter : afterP1 mc = some tm)
    (hflags : flags rod.id = (true, false))
    (hfl : rod.fixed_length = some true)
    (hmd : rod.mid_point_distance = some 0)
    (hL : 0 ≤ rod.length)
    (hlen : hypot ((ce.sub cs)).x ((ce.sub cs)).y > 1e-6)
    (hdot : Pt.dot (tm.sub cs) (tm.sub cs) > thrSq) :
    phase2Rod thrSq afterP1 ph flags rod =
      Except.ok (cs, cs.add ((ce.sub cs).smul
        (rod.length / hypot ((ce.sub cs)).x ((ce.sub cs)).y))) := by
  have hmin : min rod.length (0 : ℝ) = 0 := min_eq_right hL
  have hne : ¬((ce.sub cs).x = 0 ∧ (ce.sub cs).y = 0) :=
    ne_zero_of_hypot_pos (lt_trans (by norm_num) hlen)
  have hng : ¬((0 : ℝ) > 1e-6) := by norm_num
  simp only [phase2Rod, hget, hmc, hafter, hflags, hfl, hmd, hmin, max_self,
    zero_div, Pt.smul, mul_zero, Pt.add, add_zero, ite_self]
  rw [if_pos hdot]
  rw [cos_atan2 _ _ hne, sin_atan2]
  simp only [Bool.and_false, Bool.false_eq_true, if_false, if_true]
  rw [if_neg (fun hc : (0 : ℝ) > 1e-6 ∧ hypot (tm.sub cs).x (tm.sub cs).y > 1e-6 => hng hc.1)]
  simp only [Pt.smul, Except.ok.injEq, Prod.mk.injEq, Pt.mk.injEq]
  refine ⟨trivial, ?_, ?_⟩ <;> ring

/-- Pass 0 of the C1 scenario: the rod snaps its start to (0,0) and points
toward the end target at its nominal length, ending at (10,0); the maximum
squared correction is 200. -/
theorem c1_pass0 :
    onePass mechC1 ((0.1 / 2) ^ 2) tgtC1 [(2, (⟨0, 0⟩, ⟨0, 10⟩))] =
      Except.ok ([((2 : ℤ), ((⟨0, 0⟩ : Pt), (⟨10, 0⟩ : Pt)))], 200) := by
  have h20 : hypot (20 : ℝ) 0 = 20 := hypot_eq (by norm_num) (by norm_num)
  have sab : ("a" : String) ≠ "b" := by decide
  have sba : ("b" : String) ≠ "a" := by decide
  have sam : ("a" : String) ≠ "mid" := by decide
  have sbm : ("b" : String) ≠ "mid" := by decide
  norm_num [onePass, passTargets, phase1All, phase2All, flagsOf, mapExcept, phase1Rod, phase2Rod, resolveTarget, mechC1, rodC1,
    wheelC1, tgtC1, IMap.get, maxCorrection, dSq, Pt.add, Pt.sub, Pt.smul, Pt.dot,
    h20, sab, sba, sam, sbm, Except.map, Prod.ext_iff, Pt.mk.injEq, max_def]

/-- Pass 1 of the C1 scenario (no external targets): the targets are re-read
from the wheel points, (0,0) and (20,0), and the rod stays at (0,0)-(10,0);
the correction is 0, so the solver converges. -/
theorem c1_pass1 :
    onePass mechC1 ((0.1 / 2) ^ 2) (fun _ => none) [(2, (⟨0, 0⟩, ⟨10, 0⟩))] =
      Except.ok ([((2 : ℤ), ((⟨0, 0⟩ : Pt), (⟨10, 0⟩ : Pt)))], 0) := by
  have h20 : hypot (20 : ℝ) 0 = 20 := hypot_eq (by norm_num) (by norm_num)
  have sab : ("a" : String) ≠ "b" := by decide
  have sba : ("b" : String) ≠ "a" := by decide
  have sam : ("a" : String) ≠ "mid" := by decide
  have sbm : ("b" : String) ≠ "mid" := by decide
  norm_num [onePass, passTargets, phase1All, phase2All, flagsOf, mapExcept, phase1Rod, phase2Rod, resolveTarget, mechC1, rodC1,
    wheelC1, IMap.get, maxCorrection, dSq, Pt.add, Pt.sub, Pt.smul, Pt.dot,
    currentPositions, rodEndpointLookup, wheelPointLookup, findRod, findWheel,
    Wheel.get_connection_point_position, lookupCP, radians,
    h20, sab, sba, sam, sbm, Except.map, Prod.ext_iff, Pt.mk.injEq, max_def]

/-- Pass 0 of the C6 scenario: the conflicting external target (50,0)
overrides the wheel position and the rod start snaps to it; the maximum
squared correction is 2500. -/
theorem c6_pass0 :
    onePass mechC6 ((0.1 / 2) ^ 2) tgtC6 [(2, (⟨0, 0⟩, ⟨5, 0⟩))] =
      Except.ok ([((2 : ℤ), ((⟨50, 0⟩ : Pt), (⟨5, 0⟩ : Pt)))], 2500) := by
  have sam : ("a" : String) ≠ "mid" := by decide
  norm_num [onePass, passTargets, phase1All, phase2All, flagsOf, mapExcept, phase1Rod, phase2Rod, resolveTarget, mechC6, rodC6,
    wheelC6, tgtC6, IMap.get, maxCorrection, dSq, Pt.add, Pt.sub, Pt.smul, Pt.dot,
    sam, Except.map, Prod.ext_iff, Pt.mk.injEq, max_def]

/-- Pass 1 of the C6 scenario (no external targets): the target is re-read
from the wheel, (0,0), and the start snaps back; the correction is 2500
again. -/
theorem c6_pass1 :
    onePass mechC6 ((0.1 / 2) ^ 2) (fun _ => none) [(2, (⟨50, 0⟩, ⟨5, 0⟩))] =
      Except.ok ([((2 : ℤ), ((⟨0, 0⟩ : Pt), (⟨5, 0⟩ : Pt)))], 2500) := by
  have sam : ("a" : String) ≠ "mid" := by decide
  norm_num [onePass, passTargets, phase1All, phase2All, flagsOf, mapExcept, phase1Rod, phase2Rod, resolveTarget, mechC6, rodC6,
    wheelC6, IMap.get, maxCorrection, dSq, Pt.add, Pt.sub, Pt.smul, Pt.dot,
    currentPositions, rodEndpointLookup, wheelPointLookup, findRod, findWheel,
    Wheel.get_connection_point_position, lookupCP, radians,
    sam, Except.map, Prod.ext_iff, Pt.mk.injEq, max_def]

/-- Pass 2 of the C6 scenario: a fixed point; the correction is 0 and the
solver converges. -/
theorem c6_pass2 :
    onePass mechC6 ((0.1 / 2) ^ 2) (fun _ => none) [(2, (⟨0, 0⟩, ⟨5, 0⟩))] =
      Except.ok ([((2 : ℤ), ((⟨0, 0⟩ : Pt), (⟨5, 0⟩ : Pt)))], 0) := by
  have sam : ("a" : String) ≠ "mid" := by decide
  norm_num [onePass, passTargets, phase1All, phase2All, flagsOf, mapExcept, phase1Rod, phase2Rod, resolveTarget, mechC6, rodC6,
    wheelC6, IMap.get, maxCorrection, dSq, Pt.add, Pt.sub, Pt.smul, Pt.dot,
    currentPositions, rodEndpointLookup, wheelPointLookup, findRod, findWheel,
    Wheel.get_connection_point_position, lookupCP, radians,
    sam, Except.map, Prod.ext_iff, Pt.mk.injEq, max_def]

end Cycloid

namespace Cycloid

/-- C7: a named connection point of a wheel, when its radius is nonnegative (the
data-model invariant), is computed at center + radius * (cos theta, sin
theta) with theta the current wheel rotation angle (converted from the
stored degrees to radians), and its distance from the wheel center equals
the radius of the point at every rotation angle. -/
theorem claim_C7 (w : Wheel) (pid : String) (cp : ConnectionPoint)
    (hcp : lookupCP w.connection_points pid = some cp) (hr : 0 ≤ cp.radius) :
    w.get_connection_point_position pid =
      some ⟨w.center.x + cp.radius * Real.cos (radians w.current_angle_deg),
            w.center.y + cp.radius * Real.sin (radians w.current_angle_deg)⟩
    ∧ hypot (w.center.x + cp.radius * Real.cos (radians w.current_angle_deg) - w.center.x)
        (w.center.y + cp.radius * Real.sin (radians w.current_angle_deg) - w.center.y)
      = cp.radius := by
  constructor
  · simp only [Wheel.get_connection_point_position, hcp, if_neg (not_lt.mpr hr)]
  · have h1 : w.center.x + cp.radius * Real.cos (radians w.current_angle_deg) - w.center.x
        = cp.radius * Real.cos (radians w.current_angle_deg) := by ring
    have h2 : w.center.y + cp.radius * Real.sin (radians w.current_angle_deg) - w.center.y
        = cp.radius * Real.sin (radians w.current_angle_deg) := by ring
    rw [h1, h2]
    apply hypot_eq hr
    rw [mul_pow, mul_pow, ← mul_add, Real.cos_sq_add_sin_sq, mul_one]

/-- C7 witness: the wheel wheelC7 at rotation angle 0 with its point p1 of
radius 5. -/
theorem claim_C7_witness :
    wheelC7.get_connection_point_position "p1" =
      some ⟨wheelC7.center.x + 5 * Real.cos (radians wheelC7.current_angle_deg),
            wheelC7.center.y + 5 * Real.sin (radians wheelC7.current_angle_deg)⟩
    ∧ hypot (wheelC7.center.x + 5 * Real.cos (radians wheelC7.current_angle_deg) - wheelC7.center.x)
        (wheelC7.center.y + 5 * Real.sin (radians wheelC7.current_angle_deg) - wheelC7.center.y)
      = 5 :=
  claim_C7 wheelC7 "p1" ⟨5, "p1"⟩ (by rw [wheelC7]; rw [lookupCP]; rw [if_pos rfl])
    (by norm_num)

/-- C9: Wheel.get_connection_point_position returns None exactly when the
point id has no entry in the connection_points mapping of the wheel or the named
radius of that point is negative; in all other cases it returns a position (and it
never raises: its embedded type is total into Option). -/
theorem claim_C9 (w : Wheel) (pid : String) :
    w.get_connection_point_position pid = none ↔
      lookupCP w.connection_points pid = none ∨
        ∃ cp, lookupCP w.connection_points pid = some cp ∧ cp.radius < 0 := by
  rw [Wheel.get_connection_point_position]
  cases h : lookupCP w.connection_points pid with
  | none => simp
  | some cp =>
    by_cases hr : cp.radius < 0
    · simp [hr]
    · simp [hr]

/-- C8 counterexample: the claim says a distance outside the interval
from 0 to length fails as a caller error, but get_point_at_distance on the
length-10 rod rodC8 at distance 20 succeeds and returns the extrapolated
point (20, 0), beyond the rod end (10, 0). -/
theorem claim_C8_counterexample :
    rodC8.get_point_at_distance 20 = Except.ok (⟨20, 0⟩ : Pt)
    ∧ ¬ (20 : ℝ) ≤ rodC8.length := by
  constructor
  · rw [Rod.get_point_at_distance, if_neg (by rw [rodC8]; norm_num)]
    rw [rodC8]
    norm_num
  · rw [rodC8]
    norm_num

/-- C8 amended: get_point_at_distance performs no range validation at all;
for every rod of nonzero length and every distance, including distances
outside the interval from 0 to length, it returns the linear extrapolation
start + (end - start) * (distance / length) without failing; it fails only
when length = 0 (ZeroDivisionError). -/
theorem claim_C8_amended (r : Rod) (d : ℝ) (h : r.length ≠ 0) :
    r.get_point_at_distance d =
      Except.ok ⟨r.start_pos.x + (r.end_pos.x - r.start_pos.x) * (d / r.length),
                 r.start_pos.y + (r.end_pos.y - r.start_pos.y) * (d / r.length)⟩ := by
  rw [Rod.get_point_at_distance, if_neg h]

/-- C8 amended witness: rodC8 at the out-of-range distance 20. -/
theorem claim_C8_witness :
    rodC8.length ≠ 0 ∧
    rodC8.get_point_at_distance 20 =
      Except.ok ⟨rodC8.start_pos.x + (rodC8.end_pos.x - rodC8.start_pos.x) * (20 / rodC8.length),
                 rodC8.start_pos.y + (rodC8.end_pos.y - rodC8.start_pos.y) * (20 / rodC8.length)⟩ :=
  ⟨by rw [rodC8]; norm_num, claim_C8_amended rodC8 20 (by rw [rodC8]; norm_num)⟩

/-- C10: for every rod whose current length equals 0, get_point_at_distance
raises ZeroDivisionError for every distance argument, since the ratio
distance / length is computed without guarding the division. -/
theorem claim_C10 (r : Rod) (d : ℝ) (h : r.length = 0) :
    r.get_point_at_distance d = Except.error PyError.zeroDivisionError := by
  rw [Rod.get_point_at_distance, if_pos h]

/-- C2: for every mechanism with at least one rod whose rods were built by
the Rod dataclass constructor (which declares no fixed_length field, so the
attribute is absent on every rod the program ever builds), every invocation
of the Relaxation Solver raises AttributeError before completing its first
pass, at the read in the endpoint phase of rod.fixed_length. -/
theorem claim_C2 (m : Mechanism) (ppm : ℝ) (tg : TargetMap)
    (hne : m.rods ≠ []) (hall : ∀ r, r ∈ m.rods → r.fixed_length = none) :
    propagate_constraints m ppm tg = Except.error PyError.attributeError := by
  cases hrods : m.rods with
  | nil => exact absurd hrods hne
  | cons r rest =>
    exact propagate_attr_error m ppm tg r rest hrods
      (hall r (by rw [hrods]; exact List.mem_cons_self r rest))

/-- C2 witness: the one-rod mechanism mechC2, whose rod comes from the
dataclass constructor. -/
theorem claim_C2_witness :
    mechC2.rods ≠ [] ∧
    propagate_constraints mechC2 2 (fun _ => none) = Except.error PyError.attributeError := by
  constructor
  · rw [mechC2]
    simp
  · refine claim_C2 mechC2 2 (fun _ => none) (by rw [mechC2]; simp) ?_
    intro r hr
    rw [mechC2] at hr
    simp only [List.mem_singleton] at hr
    rw [hr]
    rfl

/-- C3: deleting wheel 1 from the mechanism mechC3 clears that rod start
connection (no dangling reference remains anywhere), as the claim states;
but the second half of the claim fails: the subsequent solver call on the
resulting mechanism crashes with AttributeError (the fixed_length slip of
C2), where the spec requires it not to crash. -/
theorem claim_C3 :
    (delete_selected_component mechC3 1).wheels = []
    ∧ (delete_selected_component mechC3 1).rods = [{ rodC3 with start_connection := none }]
    ∧ propagate_constraints (delete_selected_component mechC3 1) 2 (fun _ => none) =
        Except.error PyError.attributeError := by
  have hrods : (delete_selected_component mechC3 1).rods =
      [{ rodC3 with start_connection := none }] := by
    rw [delete_selected_component]
    rw [mechC3]
    simp [clearRodRefs, rodC3, Rod.dataclass]
  refine ⟨?_, hrods, ?_⟩
  · rw [delete_selected_component]
    rw [mechC3]
    simp [wheelC3]
  · exact propagate_attr_error _ 2 (fun _ => none) _ [] hrods rfl

/-- C1 counterexample: in the C1 scenario the fixed_length rod of length 10
has its start targeted to (0,0) and its end targeted to (20,0); the solver
converges with the end at (10,0), NOT snapped to its target (20,0), and the
endpoint separation of the rod stays the nominal length 10 rather than becoming
the live distance 20 between the two targets. -/
theorem claim_C1_counterexample :
    propagate_constraints mechC1 2 tgtC1 =
      Except.ok ({ mechC1 with
        rods := [{ rodC1 with start_pos := ⟨0, 0⟩, end_pos := ⟨10, 0⟩ }] }, true)
    ∧ (Pt.mk 10 0) ≠ ⟨20, 0⟩
    ∧ dSq ⟨10, 0⟩ ⟨0, 0⟩ ≠ dSq ⟨20, 0⟩ ⟨0, 0⟩ := by
  refine ⟨?_, ?_, ?_⟩
  · have h0 := c1_pass0
    have h1 := c1_pass1
    simp only [propagate_constraints]
    rw [show (500 : ℕ) = 499 + 1 from rfl, runPasses]
    norm_num [mechC1, rodC1] at h0 h1 ⊢
    rw [h0]
    norm_num
    rw [show (499 : ℕ) = 498 + 1 from rfl, runPasses]
    norm_num
    rw [h1]
    norm_num [IMap.get]
  · intro h
    rw [Pt.mk.injEq] at h
    norm_num at h
  · norm_num [dSq, Pt.dot, Pt.sub]

/-- C1 amended: when a fixed_length rod has both endpoints targeted (and the
targets are not coincident), the start is snapped to its target and the end
is placed at the NOMINAL rod length along the direction from the start
target to the end target; the end is not snapped to its own target and the
endpoint separation of the rod stays the nominal length (it does not become the
live distance between the targets). -/
theorem claim_C1_amended (pt : TargetMap) (cur : Pt × Pt) (rod : Rod) (ts te : Pt)
    (hfl : rod.fixed_length = some true)
    (hts : resolveTarget pt rod.start_connection = some ts)
    (hte : resolveTarget pt rod.end_connection = some te)
    (hdist : hypot (te.sub ts).x (te.sub ts).y > 1e-6) :
    phase1Rod pt cur rod =
      Except.ok ((ts, ts.add ((te.sub ts).smul
        (rod.length / hypot (te.sub ts).x (te.sub ts).y))), (true, true))
    ∧ dSq (ts.add ((te.sub ts).smul
        (rod.length / hypot (te.sub ts).x (te.sub ts).y))) ts = rod.length ^ 2 :=
  phase1_both_fixed pt cur rod ts te hfl hts hte hdist

/-- C1 amended witness: the C1 scenario rod with targets (0,0) and (20,0). -/
theorem claim_C1_witness :
    phase1Rod tgtC1 (⟨0, 0⟩, ⟨0, 10⟩) rodC1 =
      Except.ok ((⟨0, 0⟩, Pt.add ⟨0, 0⟩ (Pt.smul (Pt.sub ⟨20, 0⟩ ⟨0, 0⟩)
        (rodC1.length / hypot (Pt.sub ⟨20, 0⟩ ⟨0, 0⟩).x (Pt.sub ⟨20, 0⟩ ⟨0, 0⟩).y))), (true, true))
    ∧ dSq (Pt.add ⟨0, 0⟩ (Pt.smul (Pt.sub ⟨20, 0⟩ ⟨0, 0⟩)
        (rodC1.length / hypot (Pt.sub ⟨20, 0⟩ ⟨0, 0⟩).x (Pt.sub ⟨20, 0⟩ ⟨0, 0⟩).y))) ⟨0, 0⟩
      = rodC1.length ^ 2 := by
  refine claim_C1_amended tgtC1 (⟨0, 0⟩, ⟨0, 10⟩) rodC1 ⟨0, 0⟩ ⟨20, 0⟩ rfl ?_ ?_ ?_
  · simp [resolveTarget, tgtC1, rodC1, show ("a" : String) ≠ "mid" from by decide]
  · simp [resolveTarget, tgtC1, rodC1, Prod.ext_iff,
      show ("b" : String) ≠ "mid" from by decide, show ("b" : String) ≠ "a" from by decide]
  · have h : hypot (Pt.sub ⟨20, 0⟩ ⟨0, 0⟩ : Pt).x (Pt.sub ⟨20, 0⟩ ⟨0, 0⟩ : Pt).y = 20 :=
      hypot_eq (by norm_num) (by norm_num [Pt.sub])
    rw [h]
    norm_num

/-- C4 counterexample: in the endpoint phase, when the start target (5,5)
coincides with the current rod end (zero-length pivot vector), the code
collapses the rod (end := start = (5,5)) instead of preserving the previous
bearing: a bearing-preserving fallback at the nominal length 5 would place
the end at (10,5), and the rod length is not 0, so the collapsed result
preserves no bearing at all. -/
theorem claim_C4_counterexample :
    phase1Rod ptC4 (⟨0, 5⟩, ⟨5, 5⟩) rodC4a = Except.ok ((⟨5, 5⟩, ⟨5, 5⟩), (true, false))
    ∧ (Pt.mk 5 5) ≠ Pt.add ⟨5, 5⟩ (Pt.smul (Pt.sub ⟨5, 5⟩ ⟨0, 5⟩)
        (rodC4a.length / hypot (Pt.sub ⟨5, 5⟩ ⟨0, 5⟩).x (Pt.sub ⟨5, 5⟩ ⟨0, 5⟩).y))
    ∧ rodC4a.length ≠ 0 := by
  refine ⟨?_, ?_, ?_⟩
  · refine phase1_start_only_degenerate ptC4 (⟨0, 5⟩, ⟨5, 5⟩) rodC4a ⟨5, 5⟩ rfl ?_ rfl ?_
    · simp [resolveTarget, ptC4, rodC4a, show ("t" : String) ≠ "mid" from by decide]
    · have h : hypot ((Pt.mk 5 5).sub ⟨5, 5⟩).x ((Pt.mk 5 5).sub ⟨5, 5⟩).y = 0 :=
        hypot_eq (by norm_num) (by norm_num [Pt.sub])
      rw [h]
      norm_num
  · have h5 : hypot (Pt.sub ⟨5, 5⟩ ⟨0, 5⟩ : Pt).x (Pt.sub ⟨5, 5⟩ ⟨0, 5⟩ : Pt).y = 5 :=
      hypot_eq (by norm_num) (by norm_num [Pt.sub])
    rw [h5]
    intro h
    rw [show rodC4a.length = 5 from rfl] at h
    norm_num [Pt.add, Pt.smul, Pt.sub, Pt.mk.injEq] at h
  · rw [show rodC4a.length = 5 from rfl]
    norm_num

/-- C4 amended: in the endpoint phase a zero-length pivot vector makes the
moved endpoint coincide with the snapped endpoint (the rod collapses to a
point, its previous bearing is NOT preserved); in the mid-point phase the
degenerate pivot does fall back to the phase-1 bearing of the rod (the endpoint
is re-placed at nominal length along atan2 of the phase-1 vector).  In both
cases the division by the degenerate length is guarded, so no non-finite
coordinate is produced. -/
theorem claim_C4_amended :
    (∀ (pt : TargetMap) (cur : Pt × Pt) (rod : Rod) (ts : Pt),
      rod.fixed_length = some true →
      resolveTarget pt rod.start_connection = some ts →
      resolveTarget pt rod.end_connection = none →
      ¬ hypot ((cur.2).sub ts).x ((cur.2).sub ts).y > 1e-6 →
      phase1Rod pt cur rod = Except.ok ((ts, ts), (true, false)))
    ∧ (∀ (thrSq : ℝ) (afterP1 : TargetMap) (ph : IMap) (flags : ℤ → Bool × Bool)
        (rod : Rod) (mc : ℤ × String) (cs ce tm : Pt),
      IMap.get ph rod.id = (cs, ce) →
      rod.mid_point_connection = some mc →
      afterP1 mc = some tm →
      flags rod.id = (true, false) →
      rod.fixed_length = some true →
      rod.mid_point_distance = some 0 →
      0 ≤ rod.length →
      hypot ((ce.sub cs)).x ((ce.sub cs)).y > 1e-6 →
      Pt.dot (tm.sub cs) (tm.sub cs) > thrSq →
      phase2Rod thrSq afterP1 ph flags rod =
        Except.ok (cs, cs.add ((ce.sub cs).smul
          (rod.length / hypot ((ce.sub cs)).x ((ce.sub cs)).y)))) :=
  ⟨fun pt cur rod ts hfl hts hte hdeg =>
      phase1_start_only_degenerate pt cur rod ts hfl hts hte hdeg,
   fun thrSq afterP1 ph flags rod mc cs ce tm hget hmc hafter hflags hfl hmd hL hlen hdot =>
      phase2_mid_degenerate_bearing thrSq afterP1 ph flags rod mc cs ce tm
        hget hmc hafter hflags hfl hmd hL hlen hdot⟩

/-- C4 amended witness: the endpoint-phase collapse at a current position
(2,5)-(5,5) with start target (5,5), and the mid-point-phase bearing
fallback for the rod rodC4b from (0,0) to (5,0) with mid target (1,1). -/
theorem claim_C4_witness :
    phase1Rod ptC4 (⟨2, 5⟩, ⟨5, 5⟩) rodC4a = Except.ok ((⟨5, 5⟩, ⟨5, 5⟩), (true, false))
    ∧ phase2Rod ((0.1 / 2) ^ 2) afterP1C4 phC4 (fun _ => (true, false)) rodC4b =
        Except.ok (⟨0, 0⟩, Pt.add ⟨0, 0⟩ (Pt.smul (Pt.sub ⟨5, 0⟩ ⟨0, 0⟩)
          (rodC4b.length / hypot (Pt.sub ⟨5, 0⟩ ⟨0, 0⟩).x (Pt.sub ⟨5, 0⟩ ⟨0, 0⟩).y))) := by
  constructor
  · refine claim_C4_amended.1 ptC4 (⟨2, 5⟩, ⟨5, 5⟩) rodC4a ⟨5, 5⟩ rfl ?_ rfl ?_
    · simp [resolveTarget, ptC4, rodC4a, show ("t" : String) ≠ "mid" from by decide]
    · have h : hypot ((Pt.mk 5 5).sub ⟨5, 5⟩).x ((Pt.mk 5 5).sub ⟨5, 5⟩).y = 0 :=
        hypot_eq (by norm_num) (by norm_num [Pt.sub])
      rw [h]
      norm_num
  · refine claim_C4_amended.2 ((0.1 / 2) ^ 2) afterP1C4 phC4 (fun _ => (true, false))
      rodC4b (9, "x") ⟨0, 0⟩ ⟨5, 0⟩ ⟨1, 1⟩ ?_ rfl ?_ rfl rfl rfl ?_ ?_ ?_
    · simp [IMap.get, phC4, rodC4b]
    · simp [afterP1C4]
    · rw [show rodC4b.length = 5 from rfl]
      norm_num
    · have h : hypot (Pt.sub ⟨5, 0⟩ ⟨0, 0⟩ : Pt).x (Pt.sub ⟨5, 0⟩ ⟨0, 0⟩ : Pt).y = 5 :=
        hypot_eq (by norm_num) (by norm_num [Pt.sub])
      rw [h]
      norm_num
    · norm_num [Pt.dot, Pt.sub]

/-- C6 counterexample: the solver on mechC6 with the conflicting target map
tgtC6 converges (back to the initial state, flag true), but re-invoking it
on the converged state with the same target map produces a first-pass
maximum squared correction of 2500, far above the convergence threshold
(0.1 / 2)^2: the converged positions are not a fixed point of the solver
under that target map. -/
theorem claim_C6_counterexample :
    propagate_constraints mechC6 2 tgtC6 = Except.ok (mechC6, true)
    ∧ firstPassCorrection mechC6 2 tgtC6 = Except.ok 2500
    ∧ ¬ ((2500 : ℝ) < (0.1 / 2) ^ 2) := by
  refine ⟨?_, ?_, ?_⟩
  · have h0 := c6_pass0
    have h1 := c6_pass1
    have h2 := c6_pass2
    simp only [propagate_constraints]
    rw [show (500 : ℕ) = 499 + 1 from rfl, runPasses]
    norm_num [mechC6, rodC6] at h0 h1 h2 ⊢
    rw [h0]
    norm_num
    rw [show (499 : ℕ) = 498 + 1 from rfl, runPasses]
    norm_num
    rw [h1]
    norm_num
    rw [show (498 : ℕ) = 497 + 1 from rfl, runPasses]
    norm_num
    rw [h2]
    norm_num [IMap.get]
  · have h0 := c6_pass0
    simp only [firstPassCorrection]
    norm_num [mechC6, rodC6] at h0 ⊢
    rw [h0]
  · norm_num

/-- C6 amended: a state that is an exact per-rod fixed point of a solver
pass under a target map yields a first-pass maximum squared correction of
exactly 0, below any positive tolerance; merely having converged (correction
below tolerance) under a conflicting target map gives no such guarantee, as
the counterexample shows. -/
theorem claim_C6_amended (m : Mechanism) (thrSq : ℝ) (tg : TargetMap) (prev : IMap)
    (d : IMap) (c : ℝ)
    (hpass : onePass m thrSq tg prev = Except.ok (d, c))
    (hfix : ∀ r, r ∈ m.rods → IMap.get d r.id = IMap.get prev r.id) :
    c = 0 ∧ (0 < thrSq → c < thrSq) := by
  have hc : c = maxCorrection m.rods prev d := by
    rw [onePass] at hpass
    split at hpass
    · exact absurd hpass (by simp)
    · split at hpass
      · exact absurd hpass (by simp)
      · simp only [Except.ok.injEq, Prod.mk.injEq] at hpass
        rw [← hpass.2, hpass.1]
  have hzero : maxCorrection m.rods prev d = 0 := by
    rw [maxCorrection]
    have : ∀ (l : List Rod), (∀ r, r ∈ l → IMap.get d r.id = IMap.get prev r.id) →
        l.foldl (fun acc r =>
          max acc (max (dSq (IMap.get d r.id).1 (IMap.get prev r.id).1)
                       (dSq (IMap.get d r.id).2 (IMap.get prev r.id).2))) 0 = 0 := by
      intro l
      induction l with
      | nil => intro _; rfl
      | cons a as ih =>
        intro hmem
        rw [List.foldl_cons]
        have ha := hmem a (List.mem_cons_self a as)
        have h1 : dSq (IMap.get prev a.id).1 (IMap.get prev a.id).1 = 0 := by
          simp [dSq, Pt.dot, Pt.sub, sub_self, mul_zero, add_zero]
        have h2 : dSq (IMap.get prev a.id).2 (IMap.get prev a.id).2 = 0 := by
          simp [dSq, Pt.dot, Pt.sub, sub_self, mul_zero, add_zero]
        rw [ha, h1, h2, max_self, max_self]
        exact ih (fun r hr => hmem r (List.mem_cons_of_mem a hr))
    exact this m.rods hfix
  constructor
  · rw [hc, hzero]
  · intro hpos
    rw [hc, hzero]
    exact hpos

/-- C6 amended witness: the fixed-point pass of the C6 scenario without the
conflicting targets (the state after pass 2) gives first-pass correction 0, below
the positive threshold (0.1 / 2)^2. -/
theorem claim_C6_witness :
    (0 : ℝ) = 0 ∧ ((0 : ℝ) < ((0.1 : ℝ) / 2) ^ 2 → (0 : ℝ) < ((0.1 : ℝ) / 2) ^ 2) := by
  have h := c6_pass2
  refine claim_C6_amended mechC6 ((0.1 / 2) ^ 2) (fun _ => none)
    [(2, (⟨0, 0⟩, ⟨5, 0⟩))] [(2, (⟨0, 0⟩, ⟨5, 0⟩))] 0 h ?_
  intro r hr
  rfl

/-- C5 counterexample: a root-finder that fails exactly once, at sample index
11 of 13, does not persist for more than a small fixed number of consecutive
samples, yet the loop aborts the remaining path there (success flag False,
only the 11 samples before the failure emitted, no fallback sample for index
11), refuting the claim that every failed sample falls back to the previous
solution and that abortion happens only under persistent failures. -/
theorem claim_C5_counterexample :
    calculate_path_loop solveC5 13 0 = ([1, 2, 3, 4, 5, 6, 7, 8, 9, 10, 11], false)
    ∧ (List.range 13).countP (fun i => (solveC5 i 0).isNone) = 1
    ∧ (calculate_path_loop solveC5 13 0).1.length ≠ 13 := by
  refine ⟨by decide, by decide, by decide⟩

/-- C5 amended: when the root-finder fails at a sample, the loop falls back
to the current warm-start guess (the solution of the previous sample, or the
initial guess) and emits it as a degraded sample only when the absolute
sample index is at most 10; a failure at any sample index greater than 10
aborts the remaining path immediately — the threshold is on the absolute
sample index, not on a count of consecutive failures. -/
theorem claim_C5_amended {G : Type} (rootSolve : ℕ → G → Option G) (fuel i : ℕ)
    (g : G) (acc : List G) (hfail : rootSolve i g = none) :
    (i ≤ 10 → sympyLoopAux rootSolve (fuel + 1) i g acc =
        sympyLoopAux rootSolve fuel (i + 1) g (g :: acc))
    ∧ (10 < i → sympyLoopAux rootSolve (fuel + 1) i g acc = (acc.reverse, false)) := by
  constructor
  · intro hle
    rw [sympyLoopAux, hfail]
    rw [if_neg (not_lt.mpr hle)]
  · intro hgt
    rw [sympyLoopAux, hfail]
    rw [if_pos hgt]

/-- C5 amended witness: a constantly failing root-finder at sample index 3
(fallback and continue) and at sample index 12 (immediate abort). -/
theorem claim_C5_witness :
    sympyLoopAux (fun (_ : ℕ) (_ : ℕ) => (none : Option ℕ)) 1 3 0 [] =
        sympyLoopAux (fun (_ : ℕ) (_ : ℕ) => (none : Option ℕ)) 0 4 0 [0]
    ∧ sympyLoopAux (fun (_ : ℕ) (_ : ℕ) => (none : Option ℕ)) 1 12 0 [] = ([], false) :=
  ⟨(claim_C5_amended (fun _ _ => none) 0 3 0 [] rfl).1 (by norm_num),
   (claim_C5_amended (fun _ _ => none) 0 12 0 [] rfl).2 (by norm_num)⟩

/-- C10 witness: moving the start of rodC10 onto its end point (3,4) makes
its live length 0, after which get_point_at_distance raises for distance 2. -/
theorem claim_C10_witness :
    (rodC10.move_start_to ⟨3, 4⟩).length = 0 ∧
    (rodC10.move_start_to ⟨3, 4⟩).get_point_at_distance 2 =
      Except.error PyError.zeroDivisionError := by
  have h : (rodC10.move_start_to ⟨3, 4⟩).length = 0 := by
    rw [rodC10, Rod.move_start_to]
    norm_num
  exact ⟨h, claim_C10 _ 2 h⟩

end Cycloid
